import Mathlib

/-!
Shallow embedding of the slog-unwrap crate: extension methods on `Result`
and `Option` that, on the failing variant, emit one critical-severity slog
record and then terminate the thread.

Modelling conventions:
* A `slog::Logger` is opaque; the only observable interaction is the list
  of records emitted through it, so every operation returns the records it
  emitted alongside its outcome.
* A Rust function returning `!` (divergence by `panic!`) is modelled as a
  `PanicOutcome`: the records emitted before termination plus the message
  embedded in the panic payload (`none` when the `panic-quiet` feature
  suppresses it).  The feature flag is threaded as a `quiet : Bool`
  parameter, reflecting the two possible builds.
* A `fmt::Debug` bound on a type parameter is modelled as an explicit
  `dbg : α → String` function producing the debug text of a value.
* `src/lib.rs` and `src/slog.rs` are two revisions of the same design;
  each is embedded in its own namespace, `LibRs` and `SlogRs`.
-/

/-- Rust `Result<T, E>`. -/
inductive RResult (T E : Type) where
  | Ok : T → RResult T E
  | Err : E → RResult T E
  deriving Repr, DecidableEq

/-- The slog severity levels; this crate only ever emits at `Critical`. -/
inductive Level where
  | Critical | Error | Warning | Info | Debug | Trace
  deriving Repr, DecidableEq

/-- One record delivered to the logger: a severity and the formatted text. -/
structure LogRecord where
  level : Level
  text : String
  deriving Repr, DecidableEq

/-- Observable effect of a call that never returns: the records emitted to
the logger before termination, and the message text the termination
primitive itself carries (`none` under the quiet-termination build, where
`panic!()` takes no message). -/
structure PanicOutcome where
  log : List LogRecord
  panicMsg : Option String
  deriving Repr, DecidableEq

/-- Observable result of one extension-method call: either a normal return
carrying the value and the records emitted (always `[]` on success paths),
or divergence with its `PanicOutcome`. -/
inductive CallResult (α : Type) where
  | ret : α → List LogRecord → CallResult α
  | panics : PanicOutcome → CallResult α
  deriving Repr, DecidableEq

/-- Debug text of a Rust `char` inside a string: `Debug for String` escapes
the quote and the backslash (other escapes are irrelevant to the scenarios
considered here, which contain none). -/
def rustCharEscape (c : Char) : String :=
  if c = '"' then "\\\"" else if c = '\\' then "\\\\" else String.singleton c

/-- Debug text of a Rust `String`: the contents, escaped, between quotes.
Models the standard library `impl Debug for String` used by the crate's
`{:?}` formatting of `String` failure values. -/
def rustStringDebug (s : String) : String :=
  "\"" ++ String.join (s.data.map rustCharEscape) ++ "\""

namespace LibRs

/-- Helper `failed` of src/lib.rs: `slog::crit!(log, "{}", msg)` then
`panic!()` under the quiet feature or `panic!("{}", msg)` otherwise. -/
def failed (quiet : Bool) (msg : String) : PanicOutcome :=
  { log := [⟨Level.Critical, msg⟩],
    panicMsg := if quiet then none else some msg }

/-- Helper `failed_with` of src/lib.rs: `slog::crit!(log, "{}: {:?}", msg,
value)` then `panic!()` under the quiet feature or `panic!("{}: {:?}",
msg, value)` otherwise.  `d` is the debug text of the value. -/
def failed_with (quiet : Bool) (msg : String) (d : String) : PanicOutcome :=
  { log := [⟨Level.Critical, msg ++ ": " ++ d⟩],
    panicMsg := if quiet then none else some (msg ++ ": " ++ d) }

/-- `Result::unwrap_or_log` of src/lib.rs. -/
def RResult.unwrap_or_log {T E : Type} (quiet : Bool) (dbg : E → String) :
    RResult T E → CallResult T
  | .Ok t => .ret t []
  | .Err e => .panics (failed_with quiet
      "called `Result::unwrap_or_log()` on an `Err` value" (dbg e))

/-- `Result::expect_or_log` of src/lib.rs. -/
def RResult.expect_or_log {T E : Type} (quiet : Bool) (dbg : E → String)
    (msg : String) : RResult T E → CallResult T
  | .Ok t => .ret t []
  | .Err e => .panics (failed_with quiet msg (dbg e))

/-- `Result::unwrap_err_or_log` of src/lib.rs. -/
def RResult.unwrap_err_or_log {T E : Type} (quiet : Bool) (dbg : T → String) :
    RResult T E → CallResult E
  | .Ok t => .panics (failed_with quiet
      "called `Result::unwrap_err_or_log()` on an `Ok` value" (dbg t))
  | .Err e => .ret e []

/-- `Result::expect_err_or_log` of src/lib.rs. -/
def RResult.expect_err_or_log {T E : Type} (quiet : Bool) (dbg : T → String)
    (msg : String) : RResult T E → CallResult E
  | .Ok t => .panics (failed_with quiet msg (dbg t))
  | .Err e => .ret e []

end LibRs

namespace SlogRs

/-- Helper `failed` of src/slog.rs (textually identical to the lib.rs
revision). -/
def failed (quiet : Bool) (msg : String) : PanicOutcome :=
  { log := [⟨Level.Critical, msg⟩],
    panicMsg := if quiet then none else some msg }

/-- Helper `failed_with` of src/slog.rs (textually identical to the lib.rs
revision). -/
def failed_with (quiet : Bool) (msg : String) (d : String) : PanicOutcome :=
  { log := [⟨Level.Critical, msg ++ ": " ++ d⟩],
    panicMsg := if quiet then none else some (msg ++ ": " ++ d) }

/-- `Result::unwrap_or_log` of src/slog.rs. -/
def RResult.unwrap_or_log {T E : Type} (quiet : Bool) (dbg : E → String) :
    RResult T E → CallResult T
  | .Ok t => .ret t []
  | .Err e => .panics (failed_with quiet
      "called `Result::unwrap_or_log()` on an `Err` value" (dbg e))

/-- `Result::expect_or_log` of src/slog.rs. -/
def RResult.expect_or_log {T E : Type} (quiet : Bool) (dbg : E → String)
    (msg : String) : RResult T E → CallResult T
  | .Ok t => .ret t []
  | .Err e => .panics (failed_with quiet msg (dbg e))

/-- `Result::unwrap_err_or_log` of src/slog.rs. -/
def RResult.unwrap_err_or_log {T E : Type} (quiet : Bool) (dbg : T → String) :
    RResult T E → CallResult E
  | .Ok t => .panics (failed_with quiet
      "called `Result::unwrap_err_or_log()` on an `Ok` value" (dbg t))
  | .Err e => .ret e []

/-- `Result::expect_err_or_log` of src/slog.rs. -/
def RResult.expect_err_or_log {T E : Type} (quiet : Bool) (dbg : T → String)
    (msg : String) : RResult T E → CallResult E
  | .Ok t => .panics (failed_with quiet msg (dbg t))
  | .Err e => .ret e []

/-- `Option::unwrap_or_log` of src/slog.rs: no `Debug` bound, `None` calls
the plain `failed` helper. -/
def Option.unwrap_or_log {T : Type} (quiet : Bool) :
    Option T → CallResult T
  | some val => .ret val []
  | none => .panics (failed quiet
      "called `Option::unwrap_or_log()` on a `None` value")

/-- `Option::expect_or_log` of src/slog.rs. -/
def Option.expect_or_log {T : Type} (quiet : Bool) (msg : String) :
    Option T → CallResult T
  | some val => .ret val []
  | none => .panics (failed quiet msg)

/-- `Option::unwrap_none_or_log` of src/slog.rs: returns unit on `None`,
diverges on `Some`. -/
def Option.unwrap_none_or_log {T : Type} (quiet : Bool) (dbg : T → String) :
    Option T → CallResult Unit
  | some val => .panics (failed_with quiet
      "called `Option::unwrap_none_or_log()` on a `Some` value" (dbg val))
  | none => .ret () []

/-- `Option::expect_none_or_log` of src/slog.rs. -/
def Option.expect_none_or_log {T : Type} (quiet : Bool) (dbg : T → String)
    (msg : String) : Option T → CallResult Unit
  | some val => .panics (failed_with quiet msg (dbg val))
  | none => .ret () []

end SlogRs

/-!
Claims.  Divergence ("never returns to the caller") is expressed by the
result being `CallResult.panics`, the embedding of a call that reaches the
`failed`/`failed_with` helpers, whose Rust return type is `!`.
-/

/-- C1: for every success payload `v` (and every error type, debug
function, quiet setting, and message), `Result::unwrap_or_log` and
`Result::expect_or_log` applied to `Ok v` return `v` itself and emit no
log record. -/
theorem C1_ok_returns_value_no_log (T E : Type) (quiet : Bool)
    (dbg : E → String) (msg : String) (v : T) :
    LibRs.RResult.unwrap_or_log quiet dbg (RResult.Ok (E := E) v) =
      CallResult.ret v [] ∧
    LibRs.RResult.expect_or_log quiet dbg msg (RResult.Ok (E := E) v) =
      CallResult.ret v [] :=
  ⟨rfl, rfl⟩

/-- C2: for every failure value `e`, `Result::unwrap_or_log` on `Err e`
diverges (never returns), and the logger receives exactly one
critical-severity record whose text contains the fixed default message
naming `unwrap_or_log` and contains the debug representation of `e`; the
text embedded in the termination signal matches the record (absent under
the quiet build). -/
theorem C2_err_diverges_logs_default (T E : Type) (quiet : Bool)
    (dbg : E → String) (e : E) :
    ∃ txt : String,
      LibRs.RResult.unwrap_or_log (T := T) quiet dbg (RResult.Err e) =
        CallResult.panics
          ⟨[⟨Level.Critical, txt⟩], if quiet then none else some txt⟩ ∧
      (∃ a b : String, txt = a ++ ("unwrap_or_log" ++ b)) ∧
      (∃ a : String, txt = a ++ dbg e) := by
  refine ⟨"called `Result::unwrap_or_log()` on an `Err` value: " ++ dbg e,
    ?_, ⟨"called `Result::", "()` on an `Err` value: " ++ dbg e, ?_⟩,
    ⟨"called `Result::unwrap_or_log()` on an `Err` value: ", ?_⟩⟩
  · rfl
  · rfl
  · rfl

/-- C3: for every failure value and caller message, `Result::expect_or_log`
on the failure diverges and logs exactly one critical record whose text is
the caller's message, then ": ", then the debug text of the failure value;
concretely, with the standard `String` debug formatting,
`expect_or_log(log, "loading config")` on `Err "boom"` logs the record
text "loading config: \"boom\"", in which the default message does not
appear. -/
theorem C3_expect_or_log_uses_caller_message (T E : Type) (quiet : Bool)
    (dbg : E → String) (msg : String) (e : E) :
    LibRs.RResult.expect_or_log (T := T) quiet dbg msg (RResult.Err e) =
      CallResult.panics
        ⟨[⟨Level.Critical, msg ++ ": " ++ dbg e⟩],
          if quiet then none else some (msg ++ ": " ++ dbg e)⟩ ∧
    LibRs.RResult.expect_or_log (T := Int) false rustStringDebug
        "loading config" (RResult.Err "boom") =
      CallResult.panics
        ⟨[⟨Level.Critical, "loading config: \"boom\""⟩],
          some "loading config: \"boom\""⟩ ∧
    ¬ ("called `Result::unwrap_or_log()` on an `Err` value").data <:+:
        ("loading config: \"boom\"").data := by
  refine ⟨rfl, by decide, by decide⟩

/-- C4: `Result::unwrap_err_or_log` and `Result::expect_err_or_log` are
the success/failure-swapped counterparts: on `Err e` they return `e` with
no logging; on `Ok t` they diverge and log exactly one critical record
whose text is the default message (naming `unwrap_err_or_log`) or the
caller's message, followed by ": " and the debug text of `t`. -/
theorem C4_err_variants_swapped (T E : Type) (quiet : Bool)
    (dbg : T → String) (msg : String) (e : E) (t : T) :
    LibRs.RResult.unwrap_err_or_log (T := T) quiet dbg (RResult.Err e) =
      CallResult.ret e [] ∧
    LibRs.RResult.expect_err_or_log (T := T) quiet dbg msg (RResult.Err e) =
      CallResult.ret e [] ∧
    (∃ dft : String,
      LibRs.RResult.unwrap_err_or_log (E := E) quiet dbg (RResult.Ok t) =
        CallResult.panics
          ⟨[⟨Level.Critical, dft ++ ": " ++ dbg t⟩],
            if quiet then none else some (dft ++ ": " ++ dbg t)⟩ ∧
      (∃ a b : String, dft = a ++ ("unwrap_err_or_log" ++ b))) ∧
    LibRs.RResult.expect_err_or_log (E := E) quiet dbg msg (RResult.Ok t) =
      CallResult.panics
        ⟨[⟨Level.Critical, msg ++ ": " ++ dbg t⟩],
          if quiet then none else some (msg ++ ": " ++ dbg t)⟩ := by
  exact ⟨rfl, rfl,
    ⟨"called `Result::unwrap_err_or_log()` on an `Ok` value", rfl,
      "called `Result::", "()` on an `Ok` value", rfl⟩, rfl⟩

/-- C5: `Option::unwrap_or_log` on `Some v` returns `v` with no logging;
on `None` it diverges with exactly one critical record whose text is
exactly the default message, and `Option::expect_or_log` on `None`
diverges with exactly one critical record whose text is exactly the
caller's message — no ": value" suffix in either. -/
theorem C5_option_unwrap_none_message_exact (T : Type) (quiet : Bool)
    (msg : String) (v : T) :
    SlogRs.Option.unwrap_or_log quiet (some v) = CallResult.ret v [] ∧
    SlogRs.Option.unwrap_or_log (T := T) quiet none =
      CallResult.panics
        ⟨[⟨Level.Critical,
            "called `Option::unwrap_or_log()` on a `None` value"⟩],
          if quiet then none
          else some "called `Option::unwrap_or_log()` on a `None` value"⟩ ∧
    SlogRs.Option.expect_or_log (T := T) quiet msg none =
      CallResult.panics
        ⟨[⟨Level.Critical, msg⟩], if quiet then none else some msg⟩ :=
  ⟨rfl, rfl, rfl⟩

/-- C6: `Option::unwrap_none_or_log` and `Option::expect_none_or_log` on
`None` return unit normally with no logging; on `Some v` they diverge and
log exactly one critical record: the default (or caller) message, ": ",
and the debug text of `v`. -/
theorem C6_option_none_variants (T : Type) (quiet : Bool)
    (dbg : T → String) (msg : String) (v : T) :
    SlogRs.Option.unwrap_none_or_log (T := T) quiet dbg none =
      CallResult.ret () [] ∧
    SlogRs.Option.expect_none_or_log (T := T) quiet dbg msg none =
      CallResult.ret () [] ∧
    SlogRs.Option.unwrap_none_or_log quiet dbg (some v) =
      CallResult.panics
        ⟨[⟨Level.Critical,
            "called `Option::unwrap_none_or_log()` on a `Some` value"
              ++ ": " ++ dbg v⟩],
          if quiet then none
          else some
            ("called `Option::unwrap_none_or_log()` on a `Some` value"
              ++ ": " ++ dbg v)⟩ ∧
    SlogRs.Option.expect_none_or_log quiet dbg msg (some v) =
      CallResult.panics
        ⟨[⟨Level.Critical, msg ++ ": " ++ dbg v⟩],
          if quiet then none else some (msg ++ ": " ++ dbg v)⟩ :=
  ⟨rfl, rfl, rfl, rfl⟩

/-- C7: the two helpers have Rust return type `!` and are therefore
embedded as producing a `PanicOutcome` — they never return a value to the
caller, and the outcome records emission happening before the unconditional
termination.  For every quiet setting, message, and debug text, `failed`
emits exactly one record, critical, with text equal to the message, and
`failed_with` emits exactly one record, critical, with text equal to the
message, ": ", and the debug representation of the value. -/
theorem C7_helpers_emit_one_critical_then_terminate (quiet : Bool)
    (msg d : String) :
    (SlogRs.failed quiet msg).log.length = 1 ∧
    (SlogRs.failed quiet msg).log = [⟨Level.Critical, msg⟩] ∧
    (SlogRs.failed_with quiet msg d).log.length = 1 ∧
    (SlogRs.failed_with quiet msg d).log =
      [⟨Level.Critical, msg ++ ": " ++ d⟩] :=
  ⟨rfl, rfl, rfl, rfl⟩

/-- C8: the record delivered to the logger is identical whether or not the
quiet-termination feature is enabled; the feature changes only the message
carried by the termination signal itself: with the feature on the signal
carries no message, and with it off (the default build) the signal
includes the message text. -/
theorem C8_quiet_toggle_only_affects_panic_message (msg d : String) :
    (LibRs.failed true msg).log = (LibRs.failed false msg).log ∧
    (LibRs.failed_with true msg d).log = (LibRs.failed_with false msg d).log ∧
    (LibRs.failed true msg).panicMsg = none ∧
    (LibRs.failed_with true msg d).panicMsg = none ∧
    (LibRs.failed false msg).panicMsg = some msg ∧
    (LibRs.failed_with false msg d).panicMsg = some (msg ++ ": " ++ d) :=
  ⟨rfl, rfl, rfl, rfl, rfl, rfl⟩

/-- C9: the `ResultExt` implementations of src/lib.rs and src/slog.rs are
extensionally equal: for every receiver, quiet setting, debug function,
and message, the four methods return the same value, emit the same
records, and diverge on the same inputs with the same panic outcome; the
two revisions' `failed` and `failed_with` helpers coincide as functions. -/
theorem C9_lib_and_slog_revisions_agree (T E : Type) (quiet : Bool)
    (dbgE : E → String) (dbgT : T → String) (msg : String)
    (r : RResult T E) :
    LibRs.RResult.unwrap_or_log quiet dbgE r =
      SlogRs.RResult.unwrap_or_log quiet dbgE r ∧
    LibRs.RResult.expect_or_log quiet dbgE msg r =
      SlogRs.RResult.expect_or_log quiet dbgE msg r ∧
    LibRs.RResult.unwrap_err_or_log quiet dbgT r =
      SlogRs.RResult.unwrap_err_or_log quiet dbgT r ∧
    LibRs.RResult.expect_err_or_log quiet dbgT msg r =
      SlogRs.RResult.expect_err_or_log quiet dbgT msg r ∧
    LibRs.failed = SlogRs.failed ∧
    LibRs.failed_with = SlogRs.failed_with := by
  cases r <;> exact ⟨rfl, rfl, rfl, rfl, rfl, rfl⟩

/-- C10: in the default build (quiet feature off), the text the
termination signal carries is character-for-character the text of the
single logged record, for both helpers: the same string reaches the
logger and the termination printer. -/
theorem C10_default_build_panic_text_equals_record_text (msg d : String) :
    (∃ t : String, (LibRs.failed false msg).log = [⟨Level.Critical, t⟩] ∧
      (LibRs.failed false msg).panicMsg = some t) ∧
    (∃ t : String,
      (LibRs.failed_with false msg d).log = [⟨Level.Critical, t⟩] ∧
      (LibRs.failed_with false msg d).panicMsg = some t) :=
  ⟨⟨msg, rfl, rfl⟩, ⟨msg ++ ": " ++ d, rfl, rfl⟩⟩
